import Mathlib

/-!
Verification of the inventory-management client (sourav-Rk/inventory-management-client).

Shallow embedding of the client-side code the specification talks about:

* `src/api/axios.ts` (src/unnamed/part_003): the axios instance, its request
  interceptor (bearer-token injection) and its response interceptor
  (401 refresh-and-retry).
* `src/context/AuthContext.tsx` (src/unnamed/part_004): startup session
  restoration, `login`, `logout`.
* `src/pages/SalesPage.tsx`: sale-form validation and the pagination footer.
* `src/pages/CustomerLedgerPage.tsx` (src/unnamed/part_002): the ledger total.

Browser `localStorage` is modelled as a record of the three entries the client
uses (`accessToken`, `refreshToken`, `user`); the serialized user profile is an
abstract string and `JSON.parse` an abstract partial function.  The axios
instance carries one piece of mutable state the code manipulates,
`api.defaults.headers.common["Authorization"]`; axios merges the instance
defaults into the per-request config before request interceptors run, so an
outbound request whose own config sets no Authorization header starts from the
default one.  Network outcomes (the status of a failed response, the result of
the refresh call) are inputs to the embedded functions, so the theorems
quantify over them.
-/

namespace InventoryClient

/-- The three client-local storage entries the client reads and writes
(`localStorage` keys "accessToken", "refreshToken", "user").  `none` models an
absent key; the user entry holds the serialized profile string. -/
structure Storage where
  accessToken : Option String
  refreshToken : Option String
  user : Option String
  deriving Repr, DecidableEq

/-- The request headers, restricted to the one header the client manipulates. -/
structure Headers where
  authorization : Option String
  deriving Repr, DecidableEq

/-- Request interceptor of `src/api/axios.ts` lines 102-111: read
"accessToken" from storage; if present, set the Authorization header to
`Bearer <token>`; otherwise return the config unchanged. -/
def requestInterceptor (storage : Storage) (config : Headers) : Headers :=
  match storage.accessToken with
  | some token => { config with authorization := some ("Bearer " ++ token) }
  | none => config

/-- Headers of an outbound request whose own config sets no Authorization
header: axios merges the instance defaults into the config before the request
interceptor runs, so the interceptor starts from the default Authorization
header (`api.defaults.headers.common["Authorization"]`, `none` until the code
sets it at line 142). -/
def sendHeaders (defaultAuth : Option String) (storage : Storage) : Headers :=
  requestInterceptor storage { authorization := defaultAuth }

/-- What the response interceptor hands back to the caller. -/
inductive InterceptResult where
  /-- `return api(originalRequest)`: the original request is re-issued once,
  carrying the given Authorization header value (line 143). -/
  | replay (authHeader : String)
  /-- `return Promise.reject(error)`: the original error propagates. -/
  | rejectOriginal
  /-- `return Promise.reject(refreshError)`: the refresh failure propagates. -/
  | rejectRefreshError
  deriving Repr, DecidableEq

/-- Observable outcome of one run of the response error interceptor. -/
structure InterceptOutcome where
  /-- storage after the run -/
  storage : Storage
  /-- `api.defaults.headers.common["Authorization"]` after the run -/
  defaultAuth : Option String
  /-- number of calls made to the refresh endpoint during the run -/
  refreshCalls : Nat
  /-- `window.location.href` assignment, if any -/
  navigation : Option String
  /-- what is returned to the awaiting caller -/
  result : InterceptResult
  /-- the request's `_retry` marker after the run -/
  retryMarker : Bool
  deriving Repr, DecidableEq

/-- Response error interceptor of `src/api/axios.ts` lines 114-157.

Inputs: current storage and default Authorization header, the failed
response's status (`none` models a network error with no response), the
original request's `_retry` marker, and the refresh endpoint's answer were it
called (`some (a, r)` = it responds with a new access/refresh token pair,
`none` = the call fails by network error or rejection).

The code: if the status is 401 and `_retry` is unset, set `_retry`, read
"refreshToken" (absent ⇒ throw into the catch block), POST the refresh
endpoint; on success write both new tokens to storage, set the default and the
request's Authorization headers to `Bearer <new access token>` and replay the
original request; on any failure in the try block remove "accessToken" and
"refreshToken", navigate to "/login" and reject with the refresh error.
Otherwise reject with the original error. -/
def responseInterceptor (storage : Storage) (defaultAuth : Option String)
    (errStatus : Option Nat) (retryMarker : Bool)
    (refreshAnswer : Option (String × String)) : InterceptOutcome :=
  if errStatus = some 401 ∧ retryMarker = false then
    match storage.refreshToken with
    | none =>
        { storage := { storage with accessToken := none, refreshToken := none }
          defaultAuth := defaultAuth
          refreshCalls := 0
          navigation := some "/login"
          result := .rejectRefreshError
          retryMarker := true }
    | some _ =>
        match refreshAnswer with
        | some (newAccess, newRefresh) =>
            { storage := { storage with
                accessToken := some newAccess, refreshToken := some newRefresh }
              defaultAuth := some ("Bearer " ++ newAccess)
              refreshCalls := 1
              navigation := none
              result := .replay ("Bearer " ++ newAccess)
              retryMarker := true }
        | none =>
            { storage := { storage with accessToken := none, refreshToken := none }
              defaultAuth := defaultAuth
              refreshCalls := 1
              navigation := some "/login"
              result := .rejectRefreshError
              retryMarker := true }
  else
    { storage := storage
      defaultAuth := defaultAuth
      refreshCalls := 0
      navigation := none
      result := .rejectOriginal
      retryMarker := retryMarker }

/-- User profile (`src/types/auth.types.ts`, src/unnamed/part_001). -/
structure User where
  _id : String
  name : String
  email : String
  phoneNumber : Option String
  role : String
  deriving Repr, DecidableEq

/-- `data` field of a successful login response
(`AuthResponse` in src/unnamed/part_001). -/
structure AuthResponseData where
  user : User
  accessToken : String
  refreshToken : String
  deriving Repr, DecidableEq

/-- Startup effect of `AuthContext` (src/unnamed/part_004 lines 41-55):
read "accessToken" and "user" from storage; if both are present, try to parse
the stored user (`JSON.parse`, modelled by the abstract `parse`); on success
the parsed profile becomes the in-memory user; on parse failure only the
"user" entry is removed.  Returns the storage after the effect and the
in-memory user state. -/
def startupRestore (parse : String → Option User) (storage : Storage) :
    Storage × Option User :=
  match storage.accessToken, storage.user with
  | some _, some storedUser =>
      match parse storedUser with
      | some parsedUser => (storage, some parsedUser)
      | none => ({ storage with user := none }, none)
  | _, _ => (storage, none)

/-- `AuthContext.login` (src/unnamed/part_004 lines 57-70).  The POST to the
login endpoint either resolves with an `AuthResponseData` or rejects with an
error (modelled by `Except`).  On success the code writes the access token,
the refresh token and `JSON.stringify(user)` (modelled by the abstract
`stringify`) to the three storage entries and sets the in-memory user; on
failure the rejection propagates to the caller before any write, leaving
storage and the in-memory user untouched.  Returns the storage, the in-memory
user and the error surfaced to the caller, if any. -/
def login (stringify : User → String) (storage : Storage)
    (currentUser : Option User) (response : Except String AuthResponseData) :
    Storage × Option User × Option String :=
  match response with
  | .ok d =>
      ({ accessToken := some d.accessToken
         refreshToken := some d.refreshToken
         user := some (stringify d.user) },
       some d.user, none)
  | .error e => (storage, currentUser, some e)

/-- `AuthContext.logout` (src/unnamed/part_004 lines 77-82): remove the three
storage entries and clear the in-memory user.  It does not touch the axios
default Authorization header. -/
def logout (_storage : Storage) : Storage :=
  { accessToken := none, refreshToken := none, user := none }

/-- Inventory item (`src/types/item.types.ts`); `_id` is optional in the DTO. -/
structure Item where
  _id : Option String
  name : String
  description : Option String
  quantity : Int
  price : ℚ
  deriving Repr, DecidableEq

/-- Customer record, restricted to the fields `SalesPage` uses. -/
structure Customer where
  _id : Option String
  name : String
  deriving Repr, DecidableEq

/-- Sale-form state of `SalesPage` (src/src/pages/SalesPage.tsx lines 9-15). -/
structure SaleFormState where
  itemId : String
  customerId : String
  isCash : Bool
  quantity : Int
  date : String
  deriving Repr, DecidableEq

/-- `selectedItem` of `SalesPage` (lines 42-45):
`items.find((i) => i._id === form.itemId)`. -/
def selectedItem (items : List Item) (form : SaleFormState) : Option Item :=
  items.find? (fun i => i._id = some form.itemId)

/-- `SalesPage.validateForm` (lines 99-108), checks in source order; `some msg`
is the validation error, `none` means the form passes. -/
def validateForm (items : List Item) (form : SaleFormState) : Option String :=
  if form.itemId = "" then some "Please select an item."
  else if form.isCash = false ∧ form.customerId = "" then
    some "Please select a customer or choose Cash."
  else if form.quantity ≤ 0 then some "Quantity must be at least 1."
  else
    match selectedItem items form with
    | none => some "Selected item not found."
    | some item =>
        if item.quantity < form.quantity then
          some "Insufficient stock for the selected item."
        else none

/-- Payload of POST /sales (`CreateSalePayload`, src/unnamed/part_003 head). -/
structure CreateSalePayload where
  item : String
  customer : Option String
  customerName : Option String
  quantity : Int
  date : Option String
  deriving Repr, DecidableEq

/-- What `SalesPage.handleSubmit` does before any asynchronous step. -/
inductive SubmitAction where
  /-- validation failed: `setError(validationError); return` — no network call
  of any kind is issued -/
  | localError (msg : String)
  /-- validation passed: `saleService.createSale(payload)` is called -/
  | networkCreate (payload : CreateSalePayload)
  deriving Repr, DecidableEq

/-- Head of `SalesPage.handleSubmit` (lines 110-138): run `validateForm`; on a
validation error surface it locally and return without any network call;
otherwise build the `CreateSalePayload` (lines 121-135) and call
`saleService.createSale`. -/
def handleSubmit (items : List Item) (customers : List Customer)
    (form : SaleFormState) : SubmitAction :=
  match validateForm items form with
  | some validationError => .localError validationError
  | none =>
      let base : CreateSalePayload :=
        { item := form.itemId
          customer := none
          customerName := none
          quantity := form.quantity
          date := some form.date }
      if form.isCash then
        .networkCreate { base with customerName := some "Cash" }
      else
        .networkCreate { base with
          customer := some form.customerId
          customerName :=
            (customers.find? (fun c => c._id = some form.customerId)).map
              Customer.name }

/-- Pagination footer text rendered by `SalesPage` (line 420) and
`SalesReportPage` (src/unnamed/part_000 line 402):
`Page {page} of {totalPages} ({total} total)`. -/
def paginationFooterText (page totalPages total : Nat) : String :=
  "Page " ++ toString page ++ " of " ++ toString totalPages ++
    " (" ++ toString total ++ " total)"

/-- `disabled` condition of the Prev button (`page === 1`). -/
def prevDisabled (page : Nat) : Bool :=
  page = 1

/-- `disabled` condition of the Next button (`page >= totalPages`). -/
def nextDisabled (page totalPages : Nat) : Bool :=
  totalPages ≤ page

/-- A sale record as the ledger page consumes it
(`Sale` in src/unnamed/part_003 head): `item` is either the item id or a
populated `Item` object. -/
structure Sale where
  _id : Option String
  item : String ⊕ Item
  customer : Option String
  customerName : Option String
  quantity : Int
  totalPrice : ℚ
  date : String
  deriving Repr, DecidableEq

/-- `CustomerLedgerPage.totalAmount` (src/unnamed/part_002 lines 17-20):
`ledger.reduce((acc, sale) => acc + sale.totalPrice, 0)`. -/
def totalAmount (ledger : List Sale) : ℚ :=
  ledger.foldl (fun acc sale => acc + sale.totalPrice) 0

/-! ## Theorems about the response interceptor -/

/-- Claim C2: a 401 on a request whose retry marker is already set triggers no
refresh call; the 401 propagates to the caller as terminal, and storage, the
default header, the navigation target and the marker are untouched. -/
theorem second401_is_terminal (storage : Storage) (defaultAuth : Option String)
    (refreshAnswer : Option (String × String)) :
    responseInterceptor storage defaultAuth (some 401) true refreshAnswer =
      { storage := storage, defaultAuth := defaultAuth, refreshCalls := 0,
        navigation := none, result := .rejectOriginal, retryMarker := true } := by
  simp [responseInterceptor]

/-- Claim C3: a first 401 while a refresh token is present makes exactly one
refresh call whatever the refresh endpoint answers; when it answers with a new
token pair, both storage tokens are overwritten with the new pair, the new
access token becomes the default credential, and the original request is
replayed once carrying the new access token. -/
theorem first401_refresh_and_retry (storage : Storage) (defaultAuth : Option String)
    (rt newAccess newRefresh : String) (h : storage.refreshToken = some rt) :
    (∀ refreshAnswer,
      (responseInterceptor storage defaultAuth (some 401) false refreshAnswer).refreshCalls = 1) ∧
    responseInterceptor storage defaultAuth (some 401) false (some (newAccess, newRefresh)) =
      { storage := { storage with
          accessToken := some newAccess, refreshToken := some newRefresh }
        defaultAuth := some ("Bearer " ++ newAccess)
        refreshCalls := 1
        navigation := none
        result := .replay ("Bearer " ++ newAccess)
        retryMarker := true } := by
  constructor
  · intro refreshAnswer
    cases refreshAnswer <;> simp [responseInterceptor, h]
  · simp [responseInterceptor, h]

/-- Witness for `first401_refresh_and_retry` at a concrete session. -/
theorem first401_refresh_and_retry_witness :
    responseInterceptor ⟨some "a0", some "r0", some "u0"⟩ none (some 401) false
        (some ("a1", "r1")) =
      { storage := ⟨some "a1", some "r1", some "u0"⟩
        defaultAuth := some ("Bearer " ++ "a1")
        refreshCalls := 1
        navigation := none
        result := .replay ("Bearer " ++ "a1")
        retryMarker := true } :=
  (first401_refresh_and_retry ⟨some "a0", some "r0", some "u0"⟩ none "r0" "a1" "r1" rfl).2

/-- Claim C5: any failure other than a 401 response (network error with no
status, non-401 4xx, 5xx) propagates unchanged: no refresh call, no
navigation, storage and the default header untouched, marker untouched —
the outcome is the same constant shape for every storage content, so no
session entry is consulted. -/
theorem non401_propagates_unchanged (storage : Storage) (defaultAuth : Option String)
    (errStatus : Option Nat) (retryMarker : Bool)
    (refreshAnswer : Option (String × String)) (h : errStatus ≠ some 401) :
    responseInterceptor storage defaultAuth errStatus retryMarker refreshAnswer =
      { storage := storage, defaultAuth := defaultAuth, refreshCalls := 0,
        navigation := none, result := .rejectOriginal, retryMarker := retryMarker } := by
  simp [responseInterceptor, h]

/-- Witness for `non401_propagates_unchanged`: a network error (no response
status) on a fresh request leaves everything alone. -/
theorem non401_propagates_unchanged_witness :
    responseInterceptor ⟨some "a0", some "r0", some "u0"⟩ none none false none =
      { storage := ⟨some "a0", some "r0", some "u0"⟩, defaultAuth := none,
        refreshCalls := 0, navigation := none, result := .rejectOriginal,
        retryMarker := false } :=
  non401_propagates_unchanged ⟨some "a0", some "r0", some "u0"⟩ none none false none
    (by decide)

/-- Claim C1, counterexample: on a refresh failure the catch block removes only
"accessToken" and "refreshToken"; the "user" entry survives, refuting the
claim that all three entries are cleared (navigation and error propagation do
happen as claimed). -/
theorem refresh_failure_leaves_user_entry :
    responseInterceptor ⟨some "a0", some "r0", some "u0"⟩ none (some 401) false none =
      { storage := ⟨none, none, some "u0"⟩, defaultAuth := none, refreshCalls := 1,
        navigation := some "/login", result := .rejectRefreshError,
        retryMarker := true } ∧
    (⟨none, none, some "u0"⟩ : Storage).user ≠ none := by
  exact ⟨by simp [responseInterceptor], by decide⟩

/-- Claim C1, amended: whenever the refresh attempt fails (missing refresh
token, or the refresh call itself fails), the client clears the two token
entries, leaves the "user" entry as it was, navigates to "/login", and
propagates the refresh failure to the original caller. -/
theorem refresh_failure_clears_tokens_and_redirects (storage : Storage)
    (defaultAuth : Option String) (refreshAnswer : Option (String × String))
    (h : storage.refreshToken = none ∨ refreshAnswer = none) :
    (responseInterceptor storage defaultAuth (some 401) false refreshAnswer).storage =
      { accessToken := none, refreshToken := none, user := storage.user } ∧
    (responseInterceptor storage defaultAuth (some 401) false refreshAnswer).navigation =
      some "/login" ∧
    (responseInterceptor storage defaultAuth (some 401) false refreshAnswer).result =
      .rejectRefreshError := by
  rcases h with h | h
  · simp [responseInterceptor, h]
  · subst h
    cases hrt : storage.refreshToken <;> simp [responseInterceptor, hrt]

/-- Witness for `refresh_failure_clears_tokens_and_redirects`: a 401 with no
refresh token in storage. -/
theorem refresh_failure_clears_tokens_and_redirects_witness :
    (responseInterceptor ⟨some "a0", none, some "u0"⟩ none (some 401) false none).storage =
      { accessToken := none, refreshToken := none, user := some "u0" } ∧
    (responseInterceptor ⟨some "a0", none, some "u0"⟩ none (some 401) false none).navigation =
      some "/login" ∧
    (responseInterceptor ⟨some "a0", none, some "u0"⟩ none (some 401) false none).result =
      .rejectRefreshError :=
  refresh_failure_clears_tokens_and_redirects ⟨some "a0", none, some "u0"⟩ none none
    (Or.inl rfl)

/-! ## Theorems about the request interceptor -/

/-- Claim C4, counterexample: a successful refresh sets the axios default
Authorization header (line 142); `logout` clears storage but not that default.
The next request then finds no access token in storage, the request
interceptor leaves the config unchanged, and the request is sent with the
stale `Bearer t2` header — refuting "if no access token is present, the
request is sent without an Authorization header". -/
theorem stale_default_header_after_logout :
    (logout (responseInterceptor ⟨some "t1", some "r1", some "u1"⟩ none (some 401) false
        (some ("t2", "r2"))).storage).accessToken = none ∧
    (sendHeaders
        (responseInterceptor ⟨some "t1", some "r1", some "u1"⟩ none (some 401) false
          (some ("t2", "r2"))).defaultAuth
        (logout (responseInterceptor ⟨some "t1", some "r1", some "u1"⟩ none (some 401) false
          (some ("t2", "r2"))).storage)).authorization = some "Bearer t2" := by
  constructor
  · rfl
  · simp [responseInterceptor, logout, sendHeaders, requestInterceptor]

/-- Claim C4, amended: if an access token is in storage at send time the
Authorization header is exactly `Bearer <accessToken>` whatever the default
was; if no access token is in storage the interceptor leaves the headers
unchanged, so the request carries exactly the default Authorization header
(which is absent unless an earlier successful refresh set it and it was never
cleared). -/
theorem authorization_header_matches_stored_token (storage : Storage)
    (defaultAuth : Option String) :
    (∀ t, storage.accessToken = some t →
      (sendHeaders defaultAuth storage).authorization = some ("Bearer " ++ t)) ∧
    (storage.accessToken = none →
      (sendHeaders defaultAuth storage).authorization = defaultAuth) := by
  constructor
  · intro t ht
    simp [sendHeaders, requestInterceptor, ht]
  · intro h
    simp [sendHeaders, requestInterceptor, h]

/-- Witness for `authorization_header_matches_stored_token`: both branches at
concrete storages. -/
theorem authorization_header_matches_stored_token_witness :
    (sendHeaders none ⟨some "tok", none, none⟩).authorization =
      some ("Bearer " ++ "tok") ∧
    (sendHeaders (some "Bearer old") ⟨none, none, none⟩).authorization =
      some "Bearer old" :=
  ⟨(authorization_header_matches_stored_token ⟨some "tok", none, none⟩ none).1 "tok" rfl,
   (authorization_header_matches_stored_token ⟨none, none, none⟩ (some "Bearer old")).2 rfl⟩

/-! ## Theorems about the session context -/

/-- Claim C6, counterexample: startup restores the session from "accessToken"
and "user" alone — with the refresh token absent it still starts
Authenticated, refuting "Authenticated exactly when both tokens and the
profile are present"; and with the access token absent the stale "user" entry
is not discarded, refuting "all partial stored state is discarded". -/
theorem startup_authenticated_without_refresh_token :
    ((⟨some "t", none, some "u1"⟩ : Storage).refreshToken = none) ∧
    (startupRestore
        (fun s => if s = "u1" then some ⟨"1", "n", "e", none, "admin"⟩ else none)
        ⟨some "t", none, some "u1"⟩).2 = some ⟨"1", "n", "e", none, "admin"⟩ ∧
    (startupRestore
        (fun s => if s = "u1" then some ⟨"1", "n", "e", none, "admin"⟩ else none)
        ⟨none, none, some "u1"⟩).1 = ⟨none, none, some "u1"⟩ := by
  refine ⟨rfl, ?_, ?_⟩ <;> simp [startupRestore]

/-- Claim C6, amended: startup restores the session as Authenticated exactly
when the access token and the user entry are present and the profile parses
(the refresh token is not consulted); the token entries are never touched; if
the profile fails to parse only the "user" entry is discarded; if the access
token or the user entry is missing, storage is left untouched and the session
starts Unauthenticated. -/
theorem startupRestore_characterization (parse : String → Option User)
    (storage : Storage) :
    ((startupRestore parse storage).2.isSome ↔
      storage.accessToken.isSome ∧ ∃ s, storage.user = some s ∧ (parse s).isSome) ∧
    ((startupRestore parse storage).1.accessToken = storage.accessToken ∧
      (startupRestore parse storage).1.refreshToken = storage.refreshToken) ∧
    (∀ s, storage.user = some s → storage.accessToken.isSome → parse s = none →
      (startupRestore parse storage).1.user = none) ∧
    ((storage.accessToken = none ∨ storage.user = none) →
      startupRestore parse storage = (storage, none)) := by
  obtain ⟨acc, rft, usr⟩ := storage
  cases acc <;> cases usr <;> simp [startupRestore]
  case some.some t s =>
    cases hp : parse s <;> simp [hp]

/-- Witness for `startupRestore_characterization`: with the access token
missing, startup leaves storage untouched and starts Unauthenticated. -/
theorem startupRestore_characterization_witness :
    startupRestore (fun _ => none) ⟨none, some "r", some "u"⟩ =
      (⟨none, some "r", some "u"⟩, none) :=
  (startupRestore_characterization (fun _ => none) ⟨none, some "r", some "u"⟩).2.2.2
    (Or.inl rfl)

/-- Claim C7: on login success the three storage entries are overwritten with
the returned access token, refresh token and serialized profile, and the
profile becomes the in-memory user; on login failure storage and the
in-memory user are untouched and the error is surfaced to the caller. -/
theorem login_stores_session_or_surfaces_error (stringify : User → String)
    (storage : Storage) (currentUser : Option User) :
    (∀ d, login stringify storage currentUser (.ok d) =
      ({ accessToken := some d.accessToken, refreshToken := some d.refreshToken,
         user := some (stringify d.user) }, some d.user, none)) ∧
    (∀ e, login stringify storage currentUser (.error e) =
      (storage, currentUser, some e)) :=
  ⟨fun _ => rfl, fun _ => rfl⟩

/-! ## Theorems about the pages -/

/-- Claim C8: when every earlier form check passes but the selected item's
stock is strictly below the requested quantity, submission stops at local
validation with the insufficient-stock message: `handleSubmit` returns a
local error, so `saleService.createSale` — the only network call in the
submit path — is never reached. -/
theorem insufficient_stock_blocks_submit (items : List Item)
    (customers : List Customer) (form : SaleFormState) (item : Item)
    (h1 : ¬ form.itemId = "") (h2 : form.isCash = true ∨ ¬ form.customerId = "")
    (h3 : 0 < form.quantity) (h4 : selectedItem items form = some item)
    (h5 : item.quantity < form.quantity) :
    handleSubmit items customers form =
      .localError "Insufficient stock for the selected item." := by
  have hc : ¬ (form.isCash = false ∧ form.customerId = "") := by
    rcases h2 with h2 | h2 <;> simp [h2]
  have hq : ¬ form.quantity ≤ 0 := not_le.mpr h3
  simp [handleSubmit, validateForm, h1, hc, hq, h4, h5]

/-- Witness for `insufficient_stock_blocks_submit`: stock 3, requested 5. -/
theorem insufficient_stock_blocks_submit_witness :
    handleSubmit
      [{ _id := some "i1", name := "Widget", description := none,
         quantity := 3, price := 10 }] []
      { itemId := "i1", customerId := "", isCash := true, quantity := 5,
        date := "2026-10-12" } =
      .localError "Insufficient stock for the selected item." :=
  insufficient_stock_blocks_submit _ _ _
    { _id := some "i1", name := "Widget", description := none,
      quantity := 3, price := 10 }
    (by decide) (Or.inl rfl) (by decide) (by decide) (by decide)

/-- Claim C9: with page = 2, totalPages = 3, total = 25 the footer renders
"Page 2 of 3 (25 total)" and neither the Prev button (`page === 1`) nor the
Next button (`page >= totalPages`) is disabled. -/
theorem pagination_footer_page2_of_3 :
    paginationFooterText 2 3 25 = "Page 2 of 3 (25 total)" ∧
    prevDisabled 2 = false ∧ nextDisabled 2 3 = false := by
  exact ⟨rfl, by decide, by decide⟩

/-- `foldl` over the ledger with a running accumulator adds the mapped sum. -/
theorem ledger_foldl_totalPrice (ledger : List Sale) :
    ∀ acc : ℚ, ledger.foldl (fun a sale => a + sale.totalPrice) acc =
      acc + (ledger.map Sale.totalPrice).sum := by
  induction ledger with
  | nil => intro acc; simp
  | cons sale rest ih => intro acc; simp [ih, add_assoc]

/-- Claim C10: the displayed ledger total equals the sum of `totalPrice` over
every loaded sale record, and is 0 for an empty ledger. -/
theorem totalAmount_is_sum_of_totalPrice :
    (∀ ledger : List Sale, totalAmount ledger = (ledger.map Sale.totalPrice).sum) ∧
    totalAmount [] = 0 := by
  constructor
  · intro ledger
    simpa [totalAmount] using ledger_foldl_totalPrice ledger 0
  · rfl

end InventoryClient
